import Mathlib

/-!
A shallow embedding of `src/index.js` of the rb-gateway repository: a GraphQL
gateway that introspects three remote services, merges their schemas with two
link fields (`User.cart`, `User.orders`), and serves the merged schema.

External library calls (HTTP transport, `introspectSchema`,
`mergeSchemas`, `info.mergeInfo.delegateToSchema`, `server.listen`) are
modelled as oracle function parameters; the code of the repository itself is
translated line by line.
-/

set_option autoImplicit false

namespace RbGateway

/-- The environment variables read by the program (`process.env.*`); each may
be absent (`none`), as `process.env` lookups yield `undefined` when unset. -/
structure Env where
  GRAPHQL_CART_SERVICE_URI : Option String
  GRAPHQL_CHECKOUT_SERVICE_URI : Option String
  GRAPHQL_USER_SERVICE_URI : Option String
  PORT : Option String
deriving DecidableEq

/-- `REMOTE_SCHEMA_URIS`: the list built at module load from the three
service URI environment variables, in source order. -/
def REMOTE_SCHEMA_URIS (env : Env) : List (Option String) :=
  [env.GRAPHQL_CART_SERVICE_URI,
   env.GRAPHQL_CHECKOUT_SERVICE_URI,
   env.GRAPHQL_USER_SERVICE_URI]

/-- `new HttpLink({ uri, fetch })`: an HTTP transport bound to a URI. The
constructor performs no validation, so the bound URI may be `undefined`
(`none`); the link is stored as built. -/
structure HttpLink where
  uri : Option String
deriving DecidableEq

/-- The type system of a remote service as obtained by introspection
(opaque for this development; only its identity matters). -/
structure RemoteSchema where
  sdl : String
deriving DecidableEq

/-- Why an introspection call can fail (upstream unreachable or the
introspection query itself failing); the catch block discards the value. -/
inductive IntrospectionError where
  | unreachable
  | badResponse
deriving DecidableEq

/-- `makeRemoteExecutableSchema({ schema, link })`: a locally executable
proxy schema that forwards execution over the given HTTP link. -/
structure ProxySchema where
  schema : RemoteSchema
  link : HttpLink
deriving DecidableEq

/-- `makeRemoteExecutableSchema`: wraps an introspected schema with the link
its resolvers forward over. -/
def makeRemoteExecutableSchema (schema : RemoteSchema) (link : HttpLink) : ProxySchema :=
  ⟨schema, link⟩

/-- `Promise.all` over already-settled promises: resolves with the list of
values when every input resolved, rejects when any input rejected. -/
def promiseAll {ε α : Type} : List (Except ε α) → Except ε (List α)
  | [] => Except.ok []
  | Except.error e :: _ => Except.error e
  | Except.ok a :: rest =>
      match promiseAll rest with
      | Except.ok as => Except.ok (a :: as)
      | Except.error e => Except.error e

/-- What `createRemoteExecutableSchemas` produces: its return value
(`none` models the implicit `undefined` return of the catch branch) together
with the console output it emitted. -/
structure SchemasResult where
  result : Option (List ProxySchema)
  log : List String
deriving DecidableEq

/-- `createRemoteExecutableSchemas(uris)`: builds one `HttpLink` per URI,
introspects every link concurrently (`Promise.all`), and wraps each
introspected schema with the link at the same index. A rejection of any
introspection is caught; the catch branch logs a fixed message and returns
`undefined`. The oracle `introspectSchema` stands for the library call of
the same name. -/
def createRemoteExecutableSchemas
    (introspectSchema : HttpLink → Except IntrospectionError RemoteSchema)
    (uris : List (Option String)) : SchemasResult :=
  let links := uris.map fun uri => HttpLink.mk uri
  let remoteSchemaPromises := links.map introspectSchema
  match promiseAll remoteSchemaPromises with
  | Except.ok remoteSchemas =>
      -- `remoteSchemas.map((schema, index) => make({schema, link: links[index]}))`;
      -- `remoteSchemas` and `links` have equal length, so the positional
      -- `links[index]` access is a zip.
      ⟨some (List.zipWith makeRemoteExecutableSchema remoteSchemas links), []⟩
  | Except.error _ =>
      ⟨none, ["Error creating remote executable schemas"]⟩

/-- `linkTypeDefs`: the static schema-extension fragment adding the two link
fields to `User`. -/
def linkTypeDefs : String :=
  "\n  extend type User \x7b\n    cart: Cart!\n    orders: [Order!]!\n  \x7d\n"

/-- The argument object passed to `info.mergeInfo.delegateToSchema({...})`.
The `schema` field is `schemas[0]` / `schemas[1]` in the source, hence an
`Option`: a JavaScript out-of-range index yields `undefined`. `Args`, `Ctx`
and `Info` are abstract, as the resolver only forwards these values. -/
structure DelegationParams (Args Ctx Info : Type) where
  schema : Option ProxySchema
  operation : String
  fieldName : String
  args : Args
  context : Ctx
  info : Info
deriving DecidableEq

/-- One entry of the link resolver map: the parent field-selection
`fragment` string and the `resolve` function. -/
structure LinkFieldResolver (Parent Args Ctx Info R : Type) where
  fragment : String
  resolve : Parent → Args → Ctx → Info → R

/-- The resolver map built by `createLinkResolvers`: the two entries under
the `User` type. -/
structure UserLinkResolvers (Parent Args Ctx Info R : Type) where
  cart : LinkFieldResolver Parent Args Ctx Info R
  orders : LinkFieldResolver Parent Args Ctx Info R

/-- `createLinkResolvers(schemas)`: builds the link resolver map. The source
calls `info.mergeInfo.delegateToSchema`, a library method carried on the
`info` value; it is modelled by the oracle `delegateToSchema` applied to the
`info` value and the argument object. Each resolver ignores its parent
(bound as `_` in the source), builds the delegation arguments, and returns
the delegated result as is. -/
def createLinkResolvers {Parent Args Ctx Info R : Type}
    (delegateToSchema : Info → DelegationParams Args Ctx Info → R)
    (schemas : List ProxySchema) : UserLinkResolvers Parent Args Ctx Info R :=
  ⟨ -- User.cart
   ⟨"... on User \x7b id \x7d",
    fun _ args context info =>
      delegateToSchema info
        ⟨schemas[0]?, "query", "cartForCurrentUser", args, context, info⟩⟩,
   -- User.orders
   ⟨"... on User \x7b id \x7d",
    fun _ args context info =>
      delegateToSchema info
        ⟨schemas[1]?, "query", "ordersForCurrentCustomer", args, context, info⟩⟩⟩

/-- A JavaScript error value reaching the top level. `typeError` models the
`TypeError` thrown by `undefined.concat(...)`; `errObj` an error thrown by a
library call such as `mergeSchemas`. -/
inductive JsError where
  | typeError
  | errObj : String → JsError
deriving DecidableEq

/-- A settled JavaScript promise: the value an `async` function's returned
promise eventually holds. -/
inductive Promise (α : Type) where
  | resolved : α → Promise α
  | rejected : JsError → Promise α
deriving DecidableEq

/-- The unified schema produced by `mergeSchemas` (opaque; produced by the
merge oracle). -/
structure UnifiedSchema where
  merged : String
deriving DecidableEq

/-- `createNewSchema(uris)`: awaits `createRemoteExecutableSchemas`, then
calls `mergeSchemas({ schemas: schemas.concat(linkTypeDefs), resolvers:
createLinkResolvers(schemas) })`. When the previous step returned
`undefined`, `schemas.concat` throws a `TypeError` before `mergeSchemas`
runs, rejecting the async function's promise. `Array.concat` with the
string `linkTypeDefs` appends it as one trailing element, so the merge
oracle receives a heterogeneous list of schemas and type-def strings.
Returns the settled promise together with the console output so far. -/
def createNewSchema {Parent Args Ctx Info R : Type}
    (delegateToSchema : Info → DelegationParams Args Ctx Info → R)
    (introspectSchema : HttpLink → Except IntrospectionError RemoteSchema)
    (mergeSchemas : List (ProxySchema ⊕ String) →
      UserLinkResolvers Parent Args Ctx Info R → Except JsError UnifiedSchema)
    (uris : List (Option String)) : Promise UnifiedSchema × List String :=
  let r := createRemoteExecutableSchemas introspectSchema uris
  match r.result with
  | none => (Promise.rejected JsError.typeError, r.log)
  | some schemas =>
      match mergeSchemas (schemas.map Sum.inl ++ [Sum.inr linkTypeDefs])
          (createLinkResolvers delegateToSchema schemas) with
      | Except.ok s => (Promise.resolved s, r.log)
      | Except.error e => (Promise.rejected e, r.log)

/-- The `new ApolloServer({...})` options object built in `runServer`. -/
structure ApolloServerOptions where
  schema : UnifiedSchema
  introspection : Bool
  playground : Bool
deriving DecidableEq

/-- The observable outcome of one `runServer()` call: the async function's
settled promise, the server construction and `listen` call when reached
(the options object and the port passed to `listen`), and console output. -/
structure RunServerOutcome where
  outcome : Promise Unit
  serverStarted : Option (ApolloServerOptions × Option String)
  logs : List String
deriving DecidableEq

/-- `runServer()`: awaits `createNewSchema(REMOTE_SCHEMA_URIS)`; on
rejection the await rethrows and the async function's promise rejects with
the same error, so no server is constructed and `listen` is never invoked.
On success it constructs `new ApolloServer({ schema, introspection: true,
playground: false })` and calls `server.listen({ port: process.env.PORT })`,
logging the startup banner with the bound URL (the `listen` oracle). -/
def runServer {Parent Args Ctx Info R : Type}
    (delegateToSchema : Info → DelegationParams Args Ctx Info → R)
    (introspectSchema : HttpLink → Except IntrospectionError RemoteSchema)
    (mergeSchemas : List (ProxySchema ⊕ String) →
      UserLinkResolvers Parent Args Ctx Info R → Except JsError UnifiedSchema)
    (listen : Option String → String)
    (env : Env) : RunServerOutcome :=
  match createNewSchema delegateToSchema introspectSchema mergeSchemas
      (REMOTE_SCHEMA_URIS env) with
  | (Promise.rejected e, log) => ⟨Promise.rejected e, none, log⟩
  | (Promise.resolved schema, log) =>
      ⟨Promise.resolved (),
       some (⟨schema, true, false⟩, env.PORT),
       log ++ ["Eagles soaring high at " ++ listen env.PORT]⟩

/-- What the top level of the module observes. `handlerCaught` records
whether the `catch (err)` block ran, `stderrLogs` the `console.error`
output of that block, `unhandledRejection` the error left on the
`runServer()` promise when nothing awaits it. -/
structure TopLevelOutcome where
  handlerCaught : Bool
  stderrLogs : List String
  unhandledRejection : Option JsError
deriving DecidableEq

/-- The module's top level: `try { runServer() } catch (err) {
console.error(err) }`. Calling an `async` function never throws
synchronously — any error inside it settles the returned promise as
rejected — so the `try` block completes normally, the `catch` block never
runs, and a rejected `runServer()` promise is left as an unhandled
rejection. -/
def topLevel (run : RunServerOutcome) : TopLevelOutcome :=
  ⟨false, [],
   match run.outcome with
   | Promise.rejected e => some e
   | Promise.resolved _ => none⟩

/-! Helper lemmas about `promiseAll` and `zipWith`. -/

theorem promiseAll_error_of_mem {ε α : Type} {xs : List (Except ε α)} {e : ε}
    (hx : Except.error e ∈ xs) : ∃ y, promiseAll xs = Except.error y := by
  induction xs with
  | nil => cases hx
  | cons x t ih =>
    cases x with
    | error e0 => exact ⟨e0, rfl⟩
    | ok a =>
      have ht : Except.error e ∈ t := by
        rcases List.mem_cons.mp hx with h | h
        · simp at h
        · exact h
      obtain ⟨y, hy⟩ := ih ht
      exact ⟨y, by simp [promiseAll, hy]⟩

theorem promiseAll_map_ok {ε α β : Type} (g : α → β) (xs : List α) :
    promiseAll (xs.map fun a => (Except.ok (g a) : Except ε β)) = Except.ok (xs.map g) := by
  induction xs with
  | nil => rfl
  | cons a t ih => simp [promiseAll, ih]

theorem zipWith_map_self {α β γ : Type} (f : β → α → γ) (g : α → β) (l : List α) :
    List.zipWith f (l.map g) l = l.map fun a => f (g a) a := by
  induction l with
  | nil => rfl
  | cons a t ih => simp [ih]

/-! Claim theorems. -/

/-- C6: the list of upstream URIs read at startup has length three and
places `GRAPHQL_CART_SERVICE_URI` at index 0, `GRAPHQL_CHECKOUT_SERVICE_URI`
at index 1 and `GRAPHQL_USER_SERVICE_URI` at index 2. -/
theorem remoteSchemaUris_positions (env : Env) :
    (REMOTE_SCHEMA_URIS env).length = 3 ∧
    (REMOTE_SCHEMA_URIS env)[0]? = some env.GRAPHQL_CART_SERVICE_URI ∧
    (REMOTE_SCHEMA_URIS env)[1]? = some env.GRAPHQL_CHECKOUT_SERVICE_URI ∧
    (REMOTE_SCHEMA_URIS env)[2]? = some env.GRAPHQL_USER_SERVICE_URI :=
  ⟨rfl, rfl, rfl, rfl⟩

/-- C1: for every ordered list of proxy schemas, resolving `User.cart`
delegates a `query` operation named `cartForCurrentUser` to the schema at
index 0, and resolving `User.orders` delegates a `query` operation named
`ordersForCurrentCustomer` to the schema at index 1. -/
theorem createLinkResolvers_delegation_targets {Parent Args Ctx Info R : Type}
    (delegateToSchema : Info → DelegationParams Args Ctx Info → R)
    (schemas : List ProxySchema) (s0 s1 : ProxySchema)
    (h0 : schemas[0]? = some s0) (h1 : schemas[1]? = some s1)
    (parent : Parent) (args : Args) (context : Ctx) (info : Info) :
    (createLinkResolvers delegateToSchema schemas).cart.resolve parent args context info =
      delegateToSchema info ⟨some s0, "query", "cartForCurrentUser", args, context, info⟩ ∧
    (createLinkResolvers delegateToSchema schemas).orders.resolve parent args context info =
      delegateToSchema info ⟨some s1, "query", "ordersForCurrentCustomer", args, context, info⟩ := by
  constructor <;> simp [createLinkResolvers, h0, h1]

/-- C1 witness: at a concrete two-schema list, the cart resolver delegates
to the schema at index 0 and the orders resolver to the schema at index 1. -/
theorem createLinkResolvers_delegation_targets_witness :
    (@createLinkResolvers Nat Nat Nat Nat (DelegationParams Nat Nat Nat)
        (fun _ p => p)
        [⟨⟨"cart"⟩, ⟨some "u0"⟩⟩, ⟨⟨"checkout"⟩, ⟨some "u1"⟩⟩]).cart.resolve 0 1 2 3 =
      ⟨some ⟨⟨"cart"⟩, ⟨some "u0"⟩⟩, "query", "cartForCurrentUser", 1, 2, 3⟩ ∧
    (@createLinkResolvers Nat Nat Nat Nat (DelegationParams Nat Nat Nat)
        (fun _ p => p)
        [⟨⟨"cart"⟩, ⟨some "u0"⟩⟩, ⟨⟨"checkout"⟩, ⟨some "u1"⟩⟩]).orders.resolve 0 1 2 3 =
      ⟨some ⟨⟨"checkout"⟩, ⟨some "u1"⟩⟩, "query", "ordersForCurrentCustomer", 1, 2, 3⟩ :=
  createLinkResolvers_delegation_targets (fun _ p => p)
    [⟨⟨"cart"⟩, ⟨some "u0"⟩⟩, ⟨⟨"checkout"⟩, ⟨some "u1"⟩⟩]
    ⟨⟨"cart"⟩, ⟨some "u0"⟩⟩ ⟨⟨"checkout"⟩, ⟨some "u1"⟩⟩ rfl rfl 0 1 2 3

/-- C5: both link resolvers pass the original arguments, context and info
to the delegated call unchanged, and return the delegated result itself,
with no transformation applied. -/
theorem createLinkResolvers_forwards_unchanged {Parent Args Ctx Info R : Type}
    (delegateToSchema : Info → DelegationParams Args Ctx Info → R)
    (schemas : List ProxySchema)
    (parent : Parent) (args : Args) (context : Ctx) (info : Info) :
    ∃ pc po : DelegationParams Args Ctx Info,
      (createLinkResolvers delegateToSchema schemas).cart.resolve parent args context info =
        delegateToSchema info pc ∧
      pc.args = args ∧ pc.context = context ∧ pc.info = info ∧
      (createLinkResolvers delegateToSchema schemas).orders.resolve parent args context info =
        delegateToSchema info po ∧
      po.args = args ∧ po.context = context ∧ po.info = info :=
  ⟨⟨schemas[0]?, "query", "cartForCurrentUser", args, context, info⟩,
   ⟨schemas[1]?, "query", "ordersForCurrentCustomer", args, context, info⟩,
   rfl, rfl, rfl, rfl, rfl, rfl, rfl, rfl⟩

/-- C9: the resolve functions never read the parent object: two runs with
different parents but the same arguments, context and info issue the same
delegated call and return the same result. -/
theorem createLinkResolvers_parent_noninterference {Parent Args Ctx Info R : Type}
    (delegateToSchema : Info → DelegationParams Args Ctx Info → R)
    (schemas : List ProxySchema)
    (p1 p2 : Parent) (args : Args) (context : Ctx) (info : Info) :
    (createLinkResolvers delegateToSchema schemas).cart.resolve p1 args context info =
      (createLinkResolvers delegateToSchema schemas).cart.resolve p2 args context info ∧
    (createLinkResolvers delegateToSchema schemas).orders.resolve p1 args context info =
      (createLinkResolvers delegateToSchema schemas).orders.resolve p2 args context info :=
  ⟨rfl, rfl⟩

/-- C8: both link resolvers declare the fragment `... on User \x7b id \x7d`
as the only parent data requirement, and a parent object carrying only the
field `id` resolves both link fields to the delegated result. -/
theorem createLinkResolvers_fragment_id {Args Ctx Info R : Type}
    (delegateToSchema : Info → DelegationParams Args Ctx Info → R)
    (schemas : List ProxySchema)
    (v : String) (args : Args) (context : Ctx) (info : Info) :
    (@createLinkResolvers (List (String × String)) Args Ctx Info R
        delegateToSchema schemas).cart.fragment = "... on User \x7b id \x7d" ∧
    (@createLinkResolvers (List (String × String)) Args Ctx Info R
        delegateToSchema schemas).orders.fragment = "... on User \x7b id \x7d" ∧
    (@createLinkResolvers (List (String × String)) Args Ctx Info R
        delegateToSchema schemas).cart.resolve [("id", v)] args context info =
      delegateToSchema info
        ⟨schemas[0]?, "query", "cartForCurrentUser", args, context, info⟩ ∧
    (@createLinkResolvers (List (String × String)) Args Ctx Info R
        delegateToSchema schemas).orders.resolve [("id", v)] args context info =
      delegateToSchema info
        ⟨schemas[1]?, "query", "ordersForCurrentCustomer", args, context, info⟩ :=
  ⟨rfl, rfl, rfl, rfl⟩

/-- C2: if introspection fails for any one of the links built from the
URIs, `createRemoteExecutableSchemas` returns `undefined` (never a partial
list) and logs exactly the fixed message. -/
theorem createRemoteExecutableSchemas_all_or_nothing
    (introspectSchema : HttpLink → Except IntrospectionError RemoteSchema)
    (uris : List (Option String)) (e : IntrospectionError) (l : HttpLink)
    (hmem : l ∈ uris.map fun uri => HttpLink.mk uri)
    (hfail : introspectSchema l = Except.error e) :
    createRemoteExecutableSchemas introspectSchema uris =
      ⟨none, ["Error creating remote executable schemas"]⟩ := by
  have hx : Except.error e ∈ (uris.map fun uri => HttpLink.mk uri).map introspectSchema := by
    rw [← hfail]
    exact List.mem_map_of_mem introspectSchema hmem
  obtain ⟨y, hy⟩ := promiseAll_error_of_mem hx
  simp only [createRemoteExecutableSchemas]
  rw [hy]

/-- C2 witness: with one URI whose introspection is unreachable, the result
is `undefined` plus the fixed log message. -/
theorem createRemoteExecutableSchemas_all_or_nothing_witness :
    createRemoteExecutableSchemas (fun _ => Except.error IntrospectionError.unreachable)
      [some "http://cart"] =
      ⟨none, ["Error creating remote executable schemas"]⟩ :=
  createRemoteExecutableSchemas_all_or_nothing
    (fun _ => Except.error IntrospectionError.unreachable)
    [some "http://cart"] IntrospectionError.unreachable
    (HttpLink.mk (some "http://cart")) (by decide) rfl

/-- C4: when every introspection succeeds, the result is a list of proxy
schemas of the same length and order as the input URIs, and the proxy at
index `i` forwards over the HTTP link built from the URI at index `i`. -/
theorem createRemoteExecutableSchemas_success_positions
    (introspectSchema : HttpLink → Except IntrospectionError RemoteSchema)
    (sch : HttpLink → RemoteSchema)
    (hok : ∀ l, introspectSchema l = Except.ok (sch l))
    (uris : List (Option String)) :
    createRemoteExecutableSchemas introspectSchema uris =
      ⟨some (uris.map fun u =>
        makeRemoteExecutableSchema (sch (HttpLink.mk u)) (HttpLink.mk u)), []⟩ ∧
    (uris.map fun u =>
      makeRemoteExecutableSchema (sch (HttpLink.mk u)) (HttpLink.mk u)).length = uris.length ∧
    ∀ i (hi : i < uris.length),
      ((uris.map fun u =>
          makeRemoteExecutableSchema (sch (HttpLink.mk u)) (HttpLink.mk u)).get
            ⟨i, by simpa using hi⟩).link = HttpLink.mk (uris.get ⟨i, hi⟩) := by
  have hfun : introspectSchema = fun l => Except.ok (sch l) := funext hok
  refine ⟨?_, by simp, ?_⟩
  · simp only [createRemoteExecutableSchemas]
    rw [hfun, promiseAll_map_ok]
    dsimp only
    rw [zipWith_map_self, List.map_map]
    rfl
  · intro i hi
    simp [List.get_eq_getElem, makeRemoteExecutableSchema]

/-- C4 witness: with two URIs and a uniformly successful introspection
oracle, the result is the two proxy schemas in input order, each bound to
its own link. -/
theorem createRemoteExecutableSchemas_success_positions_witness :
    createRemoteExecutableSchemas (fun _ => Except.ok ⟨"r"⟩)
      [some "http://cart", some "http://checkout"] =
      ⟨some [⟨⟨"r"⟩, ⟨some "http://cart"⟩⟩, ⟨⟨"r"⟩, ⟨some "http://checkout"⟩⟩], []⟩ :=
  (createRemoteExecutableSchemas_success_positions (fun _ => Except.ok ⟨"r"⟩)
    (fun _ => ⟨"r"⟩) (fun _ => rfl) [some "http://cart", some "http://checkout"]).1

/-- C10: the input URIs are not validated: on a list holding an `undefined`
URI and an empty URI, no error is raised before introspection — the links
are built as such and, when the introspection oracle accepts them, the
proxies for those very links are returned with no log output, so no
missing-configuration branch exists before the network call. -/
theorem createRemoteExecutableSchemas_no_validation
    (introspectSchema : HttpLink → Except IntrospectionError RemoteSchema)
    (s0 s1 : RemoteSchema)
    (h0 : introspectSchema (HttpLink.mk none) = Except.ok s0)
    (h1 : introspectSchema (HttpLink.mk (some "")) = Except.ok s1) :
    createRemoteExecutableSchemas introspectSchema [none, some ""] =
      ⟨some [makeRemoteExecutableSchema s0 (HttpLink.mk none),
             makeRemoteExecutableSchema s1 (HttpLink.mk (some ""))], []⟩ := by
  simp [createRemoteExecutableSchemas, promiseAll, h0, h1, makeRemoteExecutableSchema]

/-- C10 witness: both degenerate links are introspected and wrapped,
with no prior failure and no log output. -/
theorem createRemoteExecutableSchemas_no_validation_witness :
    createRemoteExecutableSchemas (fun _ => Except.ok ⟨"r"⟩) [none, some ""] =
      ⟨some [⟨⟨"r"⟩, ⟨none⟩⟩, ⟨⟨"r"⟩, ⟨some ""⟩⟩], []⟩ :=
  createRemoteExecutableSchemas_no_validation (fun _ => Except.ok ⟨"r"⟩)
    ⟨"r"⟩ ⟨"r"⟩ rfl rfl

/-- C7: whenever `runServer` reaches server construction, the ApolloServer
options carry `introspection: true` and `playground: false`. -/
theorem runServer_options {Parent Args Ctx Info R : Type}
    (delegateToSchema : Info → DelegationParams Args Ctx Info → R)
    (introspectSchema : HttpLink → Except IntrospectionError RemoteSchema)
    (mergeSchemas : List (ProxySchema ⊕ String) →
      UserLinkResolvers Parent Args Ctx Info R → Except JsError UnifiedSchema)
    (listen : Option String → String) (env : Env)
    (o : ApolloServerOptions) (port : Option String)
    (h : (runServer delegateToSchema introspectSchema mergeSchemas listen
            env).serverStarted = some (o, port)) :
    o.introspection = true ∧ o.playground = false := by
  unfold runServer at h
  cases hc : createNewSchema delegateToSchema introspectSchema mergeSchemas
      (REMOTE_SCHEMA_URIS env) with
  | mk p log =>
    rw [hc] at h
    cases p with
    | rejected e => simp at h
    | resolved s =>
      simp only [Option.some.injEq, Prod.mk.injEq] at h
      obtain ⟨ho, hport⟩ := h
      rw [← ho]
      exact ⟨rfl, rfl⟩

/-- C7 witness: a concrete successful run constructs the server with
introspection on and playground off. -/
theorem runServer_options_witness :
    (⟨⟨"m"⟩, true, false⟩ : ApolloServerOptions).introspection = true ∧
    (⟨⟨"m"⟩, true, false⟩ : ApolloServerOptions).playground = false :=
  @runServer_options Unit Unit Unit Unit Unit (fun _ _ => ())
    (fun _ => Except.ok ⟨"r"⟩) (fun _ _ => Except.ok ⟨"m"⟩) (fun _ => "url")
    ⟨some "c", some "k", some "u", some "4000"⟩
    ⟨⟨"m"⟩, true, false⟩ (some "4000") rfl

/-- C3: with the cart upstream unreachable, the startup error rejects the
`runServer()` promise (after the swallowed introspection failure resurfaces
as the `TypeError` of `undefined.concat`), and the server never starts
listening; but because `runServer` is `async`, the top-level `try/catch`
never catches it — the catch block does not run and nothing is written to
standard error by the handler; the rejection is left unhandled. This
contradicts the claim that the outermost handler catches and logs the raw
error. -/
theorem runServer_startup_error_unhandled :
    (@runServer Unit Unit Unit Unit Unit (fun _ _ => ())
        (fun _ => Except.error IntrospectionError.unreachable)
        (fun _ _ => Except.ok ⟨"m"⟩) (fun _ => "url")
        ⟨some "c", some "k", some "u", some "4000"⟩) =
      ⟨Promise.rejected JsError.typeError, none,
       ["Error creating remote executable schemas"]⟩ ∧
    topLevel ⟨Promise.rejected JsError.typeError, none,
       ["Error creating remote executable schemas"]⟩ =
      ⟨false, [], some JsError.typeError⟩ :=
  ⟨rfl, rfl⟩

end RbGateway
